import Mathlib

/-!
Shallow embedding of the chunked multipart-upload pipeline of the
Storagebot repository (Telegram → local file → S3-compatible multipart
upload with live progress reporting), together with proofs and
refutations of the specification's claims about it.

Each definition is translated from a concrete function of the source
tree; the doc comment of every definition names the source file and
function it embeds.  Machine arithmetic is modelled with `Nat`/`Int`/`ℚ`,
Python dictionaries with association/key lists, Python exceptions with
`Except`, and the S3 client with explicit response functions passed as
parameters.
-/

namespace Storagebot

set_option maxRecDepth 40000

/-- The dictionary `{'PartNumber': n, 'ETag': t}` returned by the part
upload helpers and collected into the `parts` list
(`deepseek_python_20250920_1eae16.py`, `upload_part`;
`deepseek_python_20250920_c20274.py`, `upload_part_turbo`). -/
structure PartResult where
  partNumber : Nat
  etag : String
deriving DecidableEq, Repr

/-- `part_count = math.ceil(file_size / part_size)` as computed in
`upload_multipart` (`deepseek_python_20250920_1eae16.py` line 588, with
`part_size = CHUNK_SIZE`) and in `upload_multipart_with_progress`
(`deepseek_python_20250920_ed84c8.py` line 409).  For `part_size > 0`
the ceiling of the real division equals `(file_size + part_size - 1) / part_size`
in natural division. -/
def part_count (file_size part_size : Nat) : Nat :=
  (file_size + part_size - 1) / part_size

/-- `part_size = max(5 * 1024 * 1024, min(CHUNK_SIZE, file_size // 10000))`
from `upload_multipart_with_progress` (`deepseek_python_20250920_ed84c8.py`
line 408, `CHUNK_SIZE = 20 * 1024 * 1024`). -/
def ed84c8_part_size (file_size : Nat) : Nat :=
  max (5 * 1024 * 1024) (min (20 * 1024 * 1024) (file_size / 10000))

/-- The part numbers submitted to the worker pool:
`for part_number in range(1, part_count + 1)` in `upload_multipart`
(`deepseek_python_20250920_1eae16.py` lines 592-604) and
`upload_multipart_with_progress` (`deepseek_python_20250920_ed84c8.py`
lines 415-427). -/
def dispatched_parts (file_size part_size : Nat) : List Nat :=
  List.range' 1 (part_count file_size part_size)

/-- The key ordering of `parts.sort(key=lambda x: x['PartNumber'])`. -/
def leByPartNumber (a b : PartResult) : Prop :=
  a.partNumber ≤ b.partNumber

instance : DecidableRel leByPartNumber :=
  fun a b => Nat.decLe a.partNumber b.partNumber

instance : IsTotal PartResult leByPartNumber :=
  ⟨fun a b => Nat.le_total a.partNumber b.partNumber⟩

instance : IsTrans PartResult leByPartNumber :=
  ⟨fun _ _ _ => Nat.le_trans⟩

/-- `parts.sort(key=lambda x: x['PartNumber'])`, modelled as a stable
sort on the part number. -/
def sort_parts (parts : List PartResult) : List PartResult :=
  List.insertionSort leByPartNumber parts

/-- The `parts` list passed to `s3_client.complete_multipart_upload` when
every dispatched part succeeded: the successful future of part `n`
returns `{'PartNumber': n, 'ETag': etag n}`, `as_completed` hands the
futures back in an arbitrary completion order `order`, the results are
appended in that order and finally sorted by part number
(`deepseek_python_20250920_1eae16.py` lines 606-617;
`deepseek_python_20250920_ed84c8.py` lines 429-450). -/
def complete_parts (etag : Nat → String) (order : List Nat) : List PartResult :=
  sort_parts (order.map fun n => PartResult.mk n (etag n))

/-- Outcome of the finalize region. `incompleteParts` is the
`IncompletePartsError` outcome named by the specification; the code has
no corresponding branch. -/
inductive FinalizeOutcome where
  | committed (parts : List PartResult)
  | incompleteParts
deriving DecidableEq, Repr

/-- The finalize region of the uploaders: sort the collected parts by
part number and call `complete_multipart_upload` with them,
unconditionally — no completeness check of any kind is performed before
committing (`deepseek_python_20250920_1eae16.py` lines 610-617;
`deepseek_python_20250920_ed84c8.py` lines 442-450). -/
def finalize (parts : List PartResult) : FinalizeOutcome :=
  FinalizeOutcome.committed (sort_parts parts)

/-- Sorting a list of part results whose part numbers form a permutation
of `1..N` and projecting back to part numbers yields exactly `1..N`. -/
lemma sorted_partNumbers_of_perm (l : List PartResult) (n : Nat)
    (h : (l.map PartResult.partNumber).Perm (List.range' 1 n)) :
    (sort_parts l).map PartResult.partNumber = List.range' 1 n := by
  have h1 : ((sort_parts l).map PartResult.partNumber).Perm (List.range' 1 n) :=
    ((List.perm_insertionSort leByPartNumber l).map PartResult.partNumber).trans h
  have h2 : List.Sorted (fun a b : Nat => a ≤ b)
      ((sort_parts l).map PartResult.partNumber) := by
    have hs := List.sorted_insertionSort leByPartNumber l
    exact List.Pairwise.map PartResult.partNumber (fun a b hab => hab) hs
  have h3 : List.Sorted (fun a b : Nat => a ≤ b) (List.range' 1 n) :=
    List.pairwise_le_range' 1 n 1
  exact List.eq_of_perm_of_sorted h1 h2 h3

/-- **C1.** For every file of `file_size` bytes uploaded through the
multipart path, if the transfer completes successfully (every dispatched
part returned a result, collected in some completion order `order`),
the part-number set handed to `complete_multipart_upload` is exactly
`{1..N}` in order, with no duplicates or gaps, where
`N = ceil(file_size / part_size)`. -/
theorem C1_complete_part_set (file_size part_size : Nat) (etag : Nat → String)
    (order : List Nat) (hperm : order.Perm (dispatched_parts file_size part_size)) :
    (complete_parts etag order).map PartResult.partNumber =
      List.range' 1 (part_count file_size part_size) := by
  apply sorted_partNumbers_of_perm
  have : (order.map fun n => PartResult.mk n (etag n)).map PartResult.partNumber = order := by
    simp [Function.comp_def]
  rw [this]
  exact hperm

/-- Witness for C1 at `file_size = 7`, `part_size = 3` (so `N = 3`) and
completion order `[2, 3, 1]`. -/
theorem C1_complete_part_set_witness :
    ([2, 3, 1] : List Nat).Perm (dispatched_parts 7 3) ∧
      (complete_parts (fun n => toString n) [2, 3, 1]).map PartResult.partNumber =
        List.range' 1 (part_count 7 3) :=
  ⟨by decide, C1_complete_part_set 7 3 (fun n => toString n) [2, 3, 1] (by decide)⟩

/-- **C2, counterexample.** `finalize` handed a part list with a gap
(parts 1 and 3 of a 3-part upload, part 2 missing) still commits; it
does not fail with `IncompletePartsError`, contrary to the claim. -/
theorem C2_counterexample :
    finalize [PartResult.mk 1 "a", PartResult.mk 3 "c"] =
      FinalizeOutcome.committed [PartResult.mk 1 "a", PartResult.mk 3 "c"] ∧
    finalize [PartResult.mk 1 "a", PartResult.mk 3 "c"] ≠
      FinalizeOutcome.incompleteParts ∧
    2 ∉ ([PartResult.mk 1 "a", PartResult.mk 3 "c"].map PartResult.partNumber) := by
  refine ⟨by decide, by decide, by decide⟩

/-- **C2, amended.** The finalize region performs no completeness
validation before committing: it sorts the collected part list by part
number and commits it unconditionally, and can never fail with
`IncompletePartsError` (no such error exists in the code).  Completeness
of the committed set holds only because of how finalize is reached: the
orchestrator dispatches every part number `1..N` and re-raises before
finalize on any part failure, so the list finalize receives covers
`{1..N}` exactly. -/
theorem C2_amended_finalize_no_validation :
    (∀ parts : List PartResult, finalize parts ≠ FinalizeOutcome.incompleteParts) ∧
    ∀ (file_size part_size : Nat) (etag : Nat → String) (order : List Nat),
      order.Perm (dispatched_parts file_size part_size) →
      finalize (order.map fun n => PartResult.mk n (etag n)) =
        FinalizeOutcome.committed (complete_parts etag order) ∧
      (complete_parts etag order).map PartResult.partNumber =
        List.range' 1 (part_count file_size part_size) := by
  constructor
  · intro parts h
    simp [finalize] at h
  · intro file_size part_size etag order hperm
    constructor
    · rfl
    · apply sorted_partNumbers_of_perm
      have : (order.map fun n => PartResult.mk n (etag n)).map PartResult.partNumber
          = order := by
        simp [Function.comp_def]
      rw [this]
      exact hperm

/-- Witness for C2's amended theorem at `file_size = 7`, `part_size = 3`,
completion order `[2, 3, 1]`. -/
theorem C2_amended_finalize_no_validation_witness :
    finalize ([2, 3, 1].map fun n => PartResult.mk n "t") =
      FinalizeOutcome.committed (complete_parts (fun _ => "t") [2, 3, 1]) ∧
    (complete_parts (fun _ => "t") [2, 3, 1]).map PartResult.partNumber =
      List.range' 1 (part_count 7 3) :=
  C2_amended_finalize_no_validation.2 7 3 (fun _ => "t") [2, 3, 1] (by decide)

/-! ### Per-part retry loops -/

/-- Trace of one part-upload call: the final outcome, the
`(PartNumber, attempt)` arguments of each `s3_client.upload_part` call
made, and the milliseconds slept between attempts. -/
structure RetryResult where
  result : Except String PartResult
  calls : List (Nat × Nat)
  sleeps : List Nat
deriving Repr

/-- The retry frame shared verbatim by `upload_part`
(`deepseek_python_20250920_1eae16.py` lines 631-651) and
`upload_part_turbo` (`deepseek_python_20250920_c20274.py` lines 419-449):
`for attempt in range(max_retries): try: ... PartNumber=part_number ...
return {'PartNumber': part_number, 'ETag': part['ETag']}
except ...: if attempt == max_retries - 1: raise e; time.sleep(backoff(attempt))`.
`io p a` is the sink's response (ETag or exception) to the upload call
of part number `p` on attempt `a`; `remaining` counts the attempts the
`range` still allows, so `remaining = 0` inside the loop is unreachable. -/
def retry_loop (io : Nat → Nat → Except String String) (backoff_ms : Nat → Nat)
    (part_number : Nat) : Nat → Nat → RetryResult
  | _, 0 => ⟨Except.error "empty attempt range", [], []⟩
  | attempt, remaining + 1 =>
    match io part_number attempt with
    | Except.ok t => ⟨Except.ok ⟨part_number, t⟩, [(part_number, attempt)], []⟩
    | Except.error e =>
      if remaining = 0 then ⟨Except.error e, [(part_number, attempt)], []⟩
      else
        let r := retry_loop io backoff_ms part_number (attempt + 1) remaining
        ⟨r.result, (part_number, attempt) :: r.calls, backoff_ms attempt :: r.sleeps⟩

/-- `upload_part` (`deepseek_python_20250920_1eae16.py` lines 630-651):
`max_retries = 3`, backoff `time.sleep(2 ** attempt)` seconds
(modelled in milliseconds).  `upload_part_with_progress`
(`deepseek_python_20250920_ed84c8.py` lines 465-517) uses the same
retry frame and constants. -/
def upload_part (io : Nat → Nat → Except String String) (part_number : Nat) :
    RetryResult :=
  retry_loop io (fun attempt => 1000 * 2 ^ attempt) part_number 0 3

/-- `upload_part_turbo` (`deepseek_python_20250920_c20274.py` lines
419-449): `max_retries = 2`, backoff `time.sleep(0.5 * (attempt + 1))`
seconds (modelled in milliseconds). -/
def upload_part_turbo (io : Nat → Nat → Except String String) (part_number : Nat) :
    RetryResult :=
  retry_loop io (fun attempt => 500 * (attempt + 1)) part_number 0 2

/-- Shape of every `retry_loop` trace: for some number of attempts
`k ≥ 1` bounded by the remaining attempt budget, the sink calls are the
consecutive attempts `attempt, attempt+1, ...` all carrying the same
part number, and a backoff sleep follows every attempt but the last. -/
lemma retry_loop_spec (io : Nat → Nat → Except String String) (backoff_ms : Nat → Nat)
    (part_number : Nat) :
    ∀ remaining attempt, 0 < remaining →
      ∃ k, 0 < k ∧ k ≤ remaining ∧
        (retry_loop io backoff_ms part_number attempt remaining).calls
          = (List.range' attempt k).map (fun a => (part_number, a)) ∧
        (retry_loop io backoff_ms part_number attempt remaining).sleeps
          = (List.range' attempt (k - 1)).map backoff_ms := by
  intro remaining
  induction remaining with
  | zero => intro attempt h; omega
  | succ r ih =>
    intro attempt _
    cases hio : io part_number attempt with
    | ok t =>
      refine ⟨1, Nat.one_pos, by omega, ?_, ?_⟩ <;>
        simp [retry_loop, hio, List.range'_one]
    | error e =>
      by_cases hr : r = 0
      · subst hr
        refine ⟨1, Nat.one_pos, by omega, ?_, ?_⟩ <;>
          simp [retry_loop, hio, List.range'_one]
      · obtain ⟨k, hk0, hkr, hc, hs⟩ := ih (attempt + 1) (by omega)
        refine ⟨k + 1, by omega, by omega, ?_, ?_⟩
        · simp only [retry_loop, hio, hr, if_false, List.range'_succ, List.map_cons]
          rw [hc]
        · simp only [retry_loop, hio, hr, if_false, Nat.add_sub_cancel]
          have hk : k = (k - 1) + 1 := (Nat.succ_pred_eq_of_pos hk0).symm
          rw [hk, List.range'_succ, List.map_cons]
          rw [hs]

/-- **C3, counterexample.** With a sink that fails every attempt with a
transient network error, `upload_part_turbo` makes exactly 2 upload
attempts for the part — not the fixed bound of 3 attempts the claim
states (which `upload_part` does make). -/
theorem C3_counterexample :
    (upload_part_turbo (fun _ _ => Except.error "transient network error") 1).calls.length
      = 2 ∧
    (2 : Nat) ≠ 3 ∧
    (upload_part (fun _ _ => Except.error "transient network error") 1).calls.length
      = 3 := by
  refine ⟨by decide, by decide, by decide⟩

/-- **C3, amended.**  Every part upload retries on any error up to a
fixed per-variant bound of attempts, and every retry reuses the same
part number as the failed attempt: `upload_part` makes at most 3
attempts sleeping `2^attempt` seconds between consecutive attempts,
while `upload_part_turbo` makes at most 2 attempts sleeping
`0.5 * (attempt + 1)` seconds (linear, and exhausted after 2 attempts
rather than the claimed 3). -/
theorem C3_amended_retry_bounds (io : Nat → Nat → Except String String)
    (part_number : Nat) :
    ((upload_part io part_number).calls.length ≤ 3 ∧
      ∀ c ∈ (upload_part io part_number).calls, c.1 = part_number) ∧
    ((upload_part_turbo io part_number).calls.length ≤ 2 ∧
      ∀ c ∈ (upload_part_turbo io part_number).calls, c.1 = part_number) ∧
    (upload_part io part_number).sleeps =
      (List.range ((upload_part io part_number).calls.length - 1)).map
        (fun attempt => 1000 * 2 ^ attempt) ∧
    (upload_part_turbo io part_number).sleeps =
      (List.range ((upload_part_turbo io part_number).calls.length - 1)).map
        (fun attempt => 500 * (attempt + 1)) := by
  obtain ⟨k, hk0, hk3, hc, hs⟩ :=
    retry_loop_spec io (fun attempt => 1000 * 2 ^ attempt) part_number 3 0 (by omega)
  obtain ⟨m, hm0, hm2, hmc, hms⟩ :=
    retry_loop_spec io (fun attempt => 500 * (attempt + 1)) part_number 2 0 (by omega)
  have hlen : (upload_part io part_number).calls.length = k := by
    simp [upload_part, hc]
  have hmlen : (upload_part_turbo io part_number).calls.length = m := by
    simp [upload_part_turbo, hmc]
  refine ⟨⟨?_, ?_⟩, ⟨?_, ?_⟩, ?_, ?_⟩
  · omega
  · intro c hcmem
    rw [show (upload_part io part_number).calls = _ from hc] at hcmem
    obtain ⟨a, _, rfl⟩ := List.mem_map.mp hcmem
    rfl
  · omega
  · intro c hcmem
    rw [show (upload_part_turbo io part_number).calls = _ from hmc] at hcmem
    obtain ⟨a, _, rfl⟩ := List.mem_map.mp hcmem
    rfl
  · rw [hlen, show (upload_part io part_number).sleeps = _ from hs,
      List.range_eq_range']
  · rw [hmlen, show (upload_part_turbo io part_number).sleeps = _ from hms,
      List.range_eq_range']

/-! ### Progress byte counting -/

/-- The sub-chunk sizes read by the inner loop of
`upload_part_with_progress` (`deepseek_python_20250920_ed84c8.py` lines
470-480): `while uploaded < part_size: chunk = f.read(min(2*1024*1024,
part_size - uploaded))`.  The loop consumes at least one byte per
iteration, so `fuel = part_size - uploaded` iterations always suffice;
the fuel is pure accounting and never cuts the loop short. -/
def chunk_read_loop : (fuel part_size uploaded : Nat) → List Nat
  | 0, _, _ => []
  | fuel + 1, part_size, uploaded =>
    if uploaded < part_size then
      let c := min (2 * 1024 * 1024) (part_size - uploaded)
      c :: chunk_read_loop fuel part_size (uploaded + c)
    else []

/-- The byte counts of the sub-chunks `upload_part_with_progress` pushes
to the shared counter while uploading one part of `part_size` bytes. -/
def part_sub_chunks (part_size : Nat) : List Nat :=
  chunk_read_loop part_size part_size 0

/-- The evolution of the shared counter
`upload_progress[upload_id]["uploaded"]` across the retry loop of
`upload_part_with_progress` (`deepseek_python_20250920_ed84c8.py` lines
465-517) for one part: each attempt re-reads the part from its first
byte and adds every uploaded sub-chunk's length to the counter
(`upload_progress[upload_id]["uploaded"] += len(chunk)`); an attempt
that dies after `f` sub-chunks leaves their bytes counted — nothing is
ever subtracted — and the next attempt starts over.  `failures` lists
the failed attempts' sub-chunk counts; the final attempt succeeds and
counts the whole part. -/
def part_progress_counter (part_size : Nat) : List Nat → Nat → Nat
  | [], counter => counter + (part_sub_chunks part_size).sum
  | f :: rest, counter =>
    part_progress_counter part_size rest
      (counter + ((part_sub_chunks part_size).take f).sum)

/-- The shared counter after every part of a session has finished, each
part contributing through `part_progress_counter`.  An element
`(part_size, failures)` describes one dispatched part. -/
def session_progress_counter : List (Nat × List Nat) → Nat → Nat
  | [], counter => counter
  | (ps, failures) :: rest, counter =>
    session_progress_counter rest (part_progress_counter ps failures counter)

/-- The byte count of each dispatched part:
`start_byte = (part_number - 1) * part_size`,
`end_byte = min(start_byte + part_size, file_size)`
(`deepseek_python_20250920_ed84c8.py` lines 416-417). -/
def part_byte_sizes (file_size part_size : Nat) : List Nat :=
  (dispatched_parts file_size part_size).map
    (fun n => min ((n - 1) * part_size + part_size) file_size - (n - 1) * part_size)

/-- `boto_callback` (`deepseek_python_20250920_1eae16.py` lines 829-830):
`status['seen'] += bytes_amount`. -/
def boto_callback (seen bytes_amount : Nat) : Nat :=
  seen + bytes_amount

/-- **C4, counterexample.** A 60 MiB upload through
`upload_multipart_with_progress` gets part size 5 MiB, hence twelve
5 MiB parts.  If part 1's first attempt dies after one 2 MiB sub-chunk
and its retry then succeeds, the shared transferred-byte counter ends at
65011712 bytes — the re-sent bytes are counted twice, and the counter
exceeds the session's 62914560-byte total, contrary to the claim. -/
theorem C4_counterexample :
    ed84c8_part_size (60 * 1024 * 1024) = 5 * 1024 * 1024 ∧
    part_byte_sizes (60 * 1024 * 1024) (5 * 1024 * 1024)
      = List.replicate 12 (5 * 1024 * 1024) ∧
    session_progress_counter
      ((5 * 1024 * 1024, [1]) :: List.replicate 11 (5 * 1024 * 1024, [])) 0
      = 65011712 ∧
    60 * 1024 * 1024 < 65011712 := by
  refine ⟨by decide, by decide, by decide, by decide⟩

/-- **C4, amended.** The transferred-byte counter is non-decreasing for
the lifetime of a session — every report adds a non-negative delta, both
in the per-part sub-chunk accounting of `upload_part_with_progress` and
in `boto_callback` — but it is *not* bounded by the session's total byte
size: when a failed part is retried, its re-sent bytes are counted
again. -/
theorem C4_amended_counter_monotone :
    (∀ (part_size : Nat) (failures : List Nat) (counter : Nat),
      counter ≤ part_progress_counter part_size failures counter) ∧
    (∀ session counter, counter ≤ session_progress_counter session counter) ∧
    (∀ seen bytes_amount, seen ≤ boto_callback seen bytes_amount) := by
  have hp : ∀ (part_size : Nat) (failures : List Nat) (counter : Nat),
      counter ≤ part_progress_counter part_size failures counter := by
    intro part_size failures
    induction failures with
    | nil => intro counter; exact Nat.le_add_right _ _
    | cons f rest ih =>
      intro counter
      exact le_trans (Nat.le_add_right _ _) (ih _)
  refine ⟨hp, ?_, fun seen b => Nat.le_add_right _ _⟩
  intro session
  induction session with
  | nil => intro counter; exact Nat.le_refl _
  | cons pf rest ih =>
    intro counter
    exact le_trans (hp pf.1 pf.2 counter) (ih _)

/-! ### Progress computations: percentage, speed, ETA -/

/-- Percentage computation of `ultra_progress_reporter`
(`deepseek_python_20250920_1eae16.py` lines 358-362):
`if total_size > 0: percentage = min((status['seen'] / total_size) * 100, 100)
else: percentage = 0`. -/
def ultra_percentage (seen total_size : ℚ) : ℚ :=
  if 0 < total_size then min (seen / total_size * 100) 100 else 0

/-- Speed computation of `ultra_progress_reporter` (line 365):
`speed = status['seen'] / elapsed_time if elapsed_time > 0 else 0`. -/
def ultra_speed (seen elapsed_time : ℚ) : ℚ :=
  if 0 < elapsed_time then seen / elapsed_time else 0

/-- ETA computation of `ultra_progress_reporter` (lines 371-372):
`eta_seconds = remaining / avg_speed if avg_speed > 0 else 0`. -/
def ultra_eta_seconds (remaining avg_speed : ℚ) : ℚ :=
  if 0 < avg_speed then remaining / avg_speed else 0

/-- ETA string formatting of `ultra_progress_reporter` (lines 374-381);
Python's `int()` truncation and float `%` are modelled with `Int.floor`
(all quantities here are non-negative) and `a - b * ⌊a / b⌋`. -/
def ultra_eta_text (eta_seconds : ℚ) : String :=
  if 3600 < eta_seconds then
    toString ⌊eta_seconds / 3600⌋ ++ "h " ++
      toString ⌊(eta_seconds - 3600 * ⌊(eta_seconds / 3600 : ℚ)⌋) / 60⌋ ++ "m"
  else if 60 < eta_seconds then
    toString ⌊eta_seconds / 60⌋ ++ "m " ++
      toString ⌊(eta_seconds - 60 * ⌊(eta_seconds / 60 : ℚ)⌋ : ℚ)⌋ ++ "s"
  else if 0 < eta_seconds then toString ⌊eta_seconds⌋ ++ "s"
  else "Calculating..."

/-- Metric computations of `UploadProgress.update`
(`deepseek_python_20250918_18894c.py` lines 103-115):
`speed = self.uploaded / elapsed_time if elapsed_time > 0 else 0`. -/
def up_speed (uploaded elapsed_time : ℚ) : ℚ :=
  if 0 < elapsed_time then uploaded / elapsed_time else 0

/-- `percentage = min(100, (self.uploaded / self.total_size) * 100) if
self.total_size > 0 else 0` (`deepseek_python_20250918_18894c.py` line 106). -/
def up_percentage (uploaded total_size : ℚ) : ℚ :=
  if 0 < total_size then min 100 (uploaded / total_size * 100) else 0

/-- ETA fields of `UploadProgress.update` (lines 112-115):
`remaining_bytes = max(0, total_size - uploaded)`,
`eta_seconds = remaining_bytes / speed if speed > 0 else 0`,
`eta_str = get_readable_time(eta_seconds) if speed > 0 else '...'`.
The formatter `get_readable_time` is abstracted as the collaborator
`fmt`; only which branch is taken matters here. -/
def up_eta_text (fmt : ℚ → String) (total_size uploaded speed : ℚ) : String :=
  if 0 < speed then fmt (max 0 (total_size - uploaded) / speed) else "..."

/-- **C6, counterexample.** For a transfer with `total_size = 0` both
progress computations report percentage `0`, not the claimed `100`. -/
theorem C6_counterexample :
    ultra_percentage 0 0 = 0 ∧ up_percentage 37 0 = 0 ∧ (0 : ℚ) ≠ 100 := by
  refine ⟨by simp [ultra_percentage], by simp [up_percentage], by norm_num⟩

/-- **C6, amended.** Every division in the progress computations is
guarded, so none of them divides by zero: when `total_size = 0` the
percentage is defined as `0` (not the claimed `100%`); when the smoothed
speed is `0` (or negative) the ETA is the placeholder text
`"Calculating..."` in `ultra_progress_reporter` and `"..."` in
`UploadProgress.update`, rather than a quotient; and when elapsed time
is `0` the speed is reported as `0`, not infinite. -/
theorem C6_amended_division_guards (fmt : ℚ → String)
    (seen total_size elapsed_time remaining avg_speed uploaded : ℚ) :
    (total_size = 0 →
      ultra_percentage seen total_size = 0 ∧ up_percentage uploaded total_size = 0) ∧
    (elapsed_time = 0 →
      ultra_speed seen elapsed_time = 0 ∧ up_speed uploaded elapsed_time = 0) ∧
    (avg_speed ≤ 0 →
      ultra_eta_seconds remaining avg_speed = 0 ∧
      ultra_eta_text (ultra_eta_seconds remaining avg_speed) = "Calculating..." ∧
      up_eta_text fmt total_size uploaded avg_speed = "...") := by
  refine ⟨?_, ?_, ?_⟩
  · intro h
    subst h
    constructor <;> simp [ultra_percentage, up_percentage]
  · intro h
    subst h
    constructor <;> simp [ultra_speed, up_speed]
  · intro h
    have hns : ¬(0 < avg_speed) := not_lt.mpr h
    have he : ultra_eta_seconds remaining avg_speed = 0 := by
      simp [ultra_eta_seconds, hns]
    refine ⟨he, ?_, ?_⟩
    · rw [he]
      norm_num [ultra_eta_text]
    · simp [up_eta_text, hns]

/-- Witness for C6's amended theorem at `total_size = 0`,
`elapsed_time = 0`, `avg_speed = 0`. -/
theorem C6_amended_division_guards_witness :
    (ultra_percentage 5 0 = 0 ∧ up_percentage 5 0 = 0) ∧
    (ultra_speed 5 0 = 0 ∧ up_speed 5 0 = 0) ∧
    (ultra_eta_seconds 7 0 = 0 ∧
      ultra_eta_text (ultra_eta_seconds 7 0) = "Calculating..." ∧
      up_eta_text (fun _ => "t") 0 5 0 = "...") :=
  ⟨(C6_amended_division_guards (fun _ => "t") 5 0 0 7 0 5).1 rfl,
    (C6_amended_division_guards (fun _ => "t") 5 0 0 7 0 5).2.1 rfl,
    (C6_amended_division_guards (fun _ => "t") 5 0 0 7 0 5).2.2 le_rfl⟩

/-! ### Rate limiting of UI updates -/

/-- The throttling state of `ultra_progress_reporter`
(`deepseek_python_20250920_1eae16.py` lines 349-432): `last_update`
starts at `0`, `status.get('last_percentage', 0)` defaults to `0`. -/
structure ReporterState where
  last_update : ℚ
  last_percentage : ℚ

/-- The observer calls (message edits) `ultra_progress_reporter` makes
over a run of its polling loop.  Each poll sample is
`(current_time, status['seen'])`; the loop computes the percentage and
edits the message iff `current_time - last_update > 1.5 or
abs(percentage - status.get('last_percentage', 0)) > 2` (line 387),
recording `last_percentage := percentage` and, on a successful edit,
`last_update := current_time` (lines 388, 412).  Returns the
`(time, percentage)` pairs of the edits performed. -/
def ultra_reporter_edits (total_size : ℚ) :
    List (ℚ × ℚ) → ReporterState → List (ℚ × ℚ)
  | [], _ => []
  | (t, seen) :: rest, s =>
    let p := ultra_percentage seen total_size
    if 3 / 2 < t - s.last_update ∨ 2 < |p - s.last_percentage| then
      (t, p) :: ultra_reporter_edits total_size rest ⟨t, p⟩
    else ultra_reporter_edits total_size rest s

/-- A poll trace of a 100-byte transfer polled every 0.8 seconds whose
byte count grows by 3 bytes per poll. -/
def C5_samples : List (ℚ × ℚ) :=
  [(4/5, 3), (8/5, 6), (12/5, 9), (16/5, 12), (4, 15),
    (24/5, 18), (28/5, 21), (32/5, 24), (36/5, 27)]

/-- **C5, counterexample.** On `C5_samples` (duration `D = 7.2` s,
configured interval `T = 1.5` s) the observer is called at every one of
the nine polls, because each poll moves the percentage by 3 points and
the `abs(percentage - last_percentage) > 2` disjunct bypasses the
interval check: nine calls exceed the claimed bound
`floor(D/T) + 2 = 6`, and the first two calls are only 0.8 s apart —
more often than once per configured interval. -/
theorem C5_counterexample :
    (ultra_reporter_edits 100 C5_samples ⟨0, 0⟩).length = 9 ∧
    (⌊(36 / 5 : ℚ) / (3 / 2)⌋ + 2 : ℤ) = 6 ∧
    ¬((9 : ℤ) ≤ 6) ∧
    ((ultra_reporter_edits 100 C5_samples ⟨0, 0⟩).map Prod.fst).take 2
      = [4/5, 8/5] ∧
    (8/5 - 4/5 : ℚ) < 3/2 := by
  have hrun : ultra_reporter_edits 100 C5_samples ⟨0, 0⟩ =
      [(4/5, 3), (8/5, 6), (12/5, 9), (16/5, 12), (4, 15),
        (24/5, 18), (28/5, 21), (32/5, 24), (36/5, 27)] := by
    norm_num [ultra_reporter_edits, ultra_percentage, C5_samples, lt_abs]
  refine ⟨by rw [hrun]; rfl, ?_, by norm_num, by rw [hrun]; norm_num, by norm_num⟩
  have : ((36 : ℚ) / 5) / (3 / 2) = 24 / 5 := by norm_num
  rw [this]
  have h4 : ⌊(24 / 5 : ℚ)⌋ = 4 := by
    rw [Int.floor_eq_iff] ; norm_num
  rw [h4]
  norm_num

/-- **C5, amended.** The reporter's edit guard is a disjunction, not a
pure rate limit: an observer call happens at a poll iff the configured
1.5-second interval has elapsed since the last call *or* the percentage
has moved by more than 2 points since the last call.  Consequently
consecutive observer calls always satisfy that disjunction — but calls
may be closer together than the interval (and exceed `floor(D/T) + 2`)
whenever the percentage is moving fast. -/
theorem C5_amended_edit_guard (total_size : ℚ) (samples : List (ℚ × ℚ))
    (s : ReporterState) :
    List.Chain (fun a b : ℚ × ℚ => 3 / 2 < b.1 - a.1 ∨ 2 < |b.2 - a.2|)
      (s.last_update, s.last_percentage)
      (ultra_reporter_edits total_size samples s) := by
  induction samples generalizing s with
  | nil => exact List.Chain.nil
  | cons sample rest ih =>
    obtain ⟨t, seen⟩ := sample
    by_cases hcond : 3 / 2 < t - s.last_update ∨
        2 < |ultra_percentage seen total_size - s.last_percentage|
    · rw [show ultra_reporter_edits total_size ((t, seen) :: rest) s
          = (t, ultra_percentage seen total_size) ::
            ultra_reporter_edits total_size rest ⟨t, ultra_percentage seen total_size⟩
        from by simp [ultra_reporter_edits, hcond]]
      exact List.Chain.cons hcond (ih ⟨t, ultra_percentage seen total_size⟩)
    · rw [show ultra_reporter_edits total_size ((t, seen) :: rest) s
          = ultra_reporter_edits total_size rest s
        from by simp [ultra_reporter_edits, hcond]]
      exact ih s

/-! ### Failure handling: abort and error propagation -/

/-- Behaviour of the `s3_client.abort_multipart_upload` call made while
handling a part failure. -/
inductive AbortBehavior where
  | ok
  | fails (msg : String)

/-- The exception path of `upload_multipart`
(`deepseek_python_20250920_1eae16.py` lines 619-628), for a failure
raised after the multipart session was opened: the inner handler calls
`abort_multipart_upload` unprotected and re-raises, and the outer
handler wraps whatever reaches it in
`Exception("Multipart upload failed: " + str(e))`.  If the abort itself
raises, its exception replaces the original error inside the wrapper.
Returns (abort was invoked, message of the error propagated to the
caller). -/
def handle_failure_1eae16 (original : String) (abort : AbortBehavior) :
    Bool × String :=
  match abort with
  | AbortBehavior.ok => (true, "Multipart upload failed: " ++ original)
  | AbortBehavior.fails a => (true, "Multipart upload failed: " ++ a)

/-- The exception handler of `upload_multipart_with_progress`
(`deepseek_python_20250920_ed84c8.py` lines 452-459), in the branch
where `'mpu_id' in locals()`: it calls `abort_multipart_upload`
unprotected, then raises
`Exception("Multipart upload failed: " + str(e))`.  If the abort itself
raises, that exception propagates raw and the original error is lost. -/
def handle_failure_ed84c8 (original : String) (abort : AbortBehavior) :
    Bool × String :=
  match abort with
  | AbortBehavior.ok => (true, "Multipart upload failed: " ++ original)
  | AbortBehavior.fails a => (true, a)

/-- The exception handler of `upload_multipart_turbo`
(`deepseek_python_20250920_c20274.py` lines 404-414), in the branch
where `'mpu_id' in locals()`: the abort call sits inside its own
`try/except: pass`, then `Exception("Upload failed: " + str(e))` is
raised with the original error. -/
def handle_failure_turbo (original : String) (_abort : AbortBehavior) :
    Bool × String :=
  (true, "Upload failed: " ++ original)

/-- **C7, counterexample.** When the abort call itself fails in
`upload_multipart_with_progress`, the abort's exception — not an
aggregated error carrying the original cause — propagates to the
caller; the original part-failure cause is lost (and in
`upload_multipart` the wrapper likewise wraps the abort error instead
of the original one). -/
theorem C7_counterexample :
    handle_failure_ed84c8 "part 3 retries exhausted" (AbortBehavior.fails "abort denied")
      = (true, "abort denied") ∧
    "abort denied" ≠ "Multipart upload failed: part 3 retries exhausted" ∧
    handle_failure_1eae16 "part 3 retries exhausted" (AbortBehavior.fails "abort denied")
      = (true, "Multipart upload failed: abort denied") := by
  refine ⟨rfl, by decide, rfl⟩

/-- **C7, amended.** On an unrecoverable part failure every variant
invokes abort on the open sink session and propagates exactly one
aggregated error carrying the original cause — but the guarantee that
an abort failure never masks the original error holds only in
`upload_multipart_turbo`, whose abort call is wrapped in
`try/except: pass`; in `upload_multipart` and
`upload_multipart_with_progress` the abort call is unprotected, so an
abort failure replaces the original cause. -/
theorem C7_amended_abort_masking (original : String) (abort : AbortBehavior) :
    (handle_failure_1eae16 original abort).1 = true ∧
    (handle_failure_ed84c8 original abort).1 = true ∧
    handle_failure_turbo original abort = (true, "Upload failed: " ++ original) ∧
    handle_failure_1eae16 original AbortBehavior.ok
      = (true, "Multipart upload failed: " ++ original) ∧
    handle_failure_ed84c8 original AbortBehavior.ok
      = (true, "Multipart upload failed: " ++ original) := by
  refine ⟨?_, ?_, rfl, rfl, rfl⟩ <;> cases abort <;> rfl

/-! ### Recorded part integrity tags -/

/-- The sink responses seen by one `upload_file_part` call
(`deepseek_python_20250920_1eae16.py` lines 1530-1556). -/
structure SinkResponses where
  upload_part_etag : String
  head_object_etag : String

/-- `upload_file_part` (`deepseek_python_20250920_1eae16.py` lines
1530-1556): uploads the byte range with `PartNumber = part_number + 1`,
*discards* the response of `s3_client.upload_part`, and returns
`{'PartNumber': part_number + 1,
'ETag': s3_client.head_object(Bucket=bucket, Key=key)['ETag']}` — the
integrity tag of a `head_object` call on the whole destination key. -/
def upload_file_part_result (sink : SinkResponses) (part_number : Nat) : PartResult :=
  PartResult.mk (part_number + 1) sink.head_object_etag

/-- **C8.** `upload_file_part` records, for the successfully uploaded
part, the ETag of a `head_object` call on the destination key instead
of the ETag the sink returned from that part's own upload call — the
upload response is discarded.  (`upload_part_turbo` does record the
part's own upload ETag.) -/
theorem C8_bug_head_object_etag :
    (upload_file_part_result
        (SinkResponses.mk "etag-of-part-upload" "etag-of-head-object") 0).etag
      = "etag-of-head-object" ∧
    "etag-of-head-object" ≠ "etag-of-part-upload" ∧
    (upload_part_turbo (fun _ _ => Except.ok "etag-of-part-upload") 1).result
      = Except.ok (PartResult.mk 1 "etag-of-part-upload") := by
  refine ⟨rfl, by decide, rfl⟩

/-! ### Filename sanitizing and object keys -/

/-- The character class kept by
`re.sub(r'[^a-zA-Z0-9 _.-]', '_', filename)` in `sanitize_filename`
(`src/main.py` line 391). -/
def allowed_char (c : Char) : Bool :=
  ('a' ≤ c && c ≤ 'z') || ('A' ≤ c && c ≤ 'Z') || ('0' ≤ c && c ≤ '9') ||
    c == ' ' || c == '_' || c == '.' || c == '-'

/-- The substitution pass of `sanitize_filename`: every character
outside the class is replaced by an underscore. -/
def sanitize_sub (s : List Char) : List Char :=
  s.map fun c => if allowed_char c then c else '_'

/-- Python `str.rfind`: index of the last occurrence, accumulated left
to right. -/
def rfind_go (c : Char) : List Char → Nat → Option Nat → Option Nat
  | [], _, acc => acc
  | x :: rest, i, acc => rfind_go c rest (i + 1) (if x == c then some i else acc)

/-- Python `str.rfind` returning `-1` when the character is absent. -/
def rfindI (c : Char) (s : List Char) : Int :=
  match rfind_go c s 0 none with
  | some i => (i : Int)
  | none => -1

/-- `os.path.splitext` (posixpath semantics): split at the last dot
after the last path separator, unless every character between the
separator and that dot is itself a dot (leading dots are part of the
root, so `.bashrc` has no extension). -/
def splitext (s : List Char) : List Char × List Char :=
  if rfindI '/' s < rfindI '.' s then
    if ((s.take (rfindI '.' s).toNat).drop (rfindI '/' s + 1).toNat).all
        (fun c => c == '.') then
      (s, [])
    else (s.take (rfindI '.' s).toNat, s.drop (rfindI '.' s).toNat)
  else (s, [])

/-- Python slicing `s[:k]` for a possibly negative `k`: a negative
index counts from the end, clamped at the start. -/
def pyslice_to (s : List Char) (k : Int) : List Char :=
  if 0 ≤ k then s.take k.toNat else s.take (s.length - (-k).toNat)

/-- `sanitize_filename` (`src/main.py` lines 389-395): substitute
disallowed characters, then, when the result is longer than 200
characters, keep `name[:200-len(ext)] + ext` where
`name, ext = os.path.splitext(filename)`. -/
def sanitize_filename (filename : List Char) : List Char :=
  if 200 < (sanitize_sub filename).length then
    pyslice_to (splitext (sanitize_sub filename)).1
        (200 - ((splitext (sanitize_sub filename)).2.length : Int)) ++
      (splitext (sanitize_sub filename)).2
  else sanitize_sub filename

lemma sanitize_sub_allowed (s : List Char) :
    ∀ c ∈ sanitize_sub s, allowed_char c = true := by
  intro c hc
  obtain ⟨a, _, rfl⟩ := List.mem_map.mp hc
  by_cases ha : allowed_char a = true
  · rw [if_pos ha]
    exact ha
  · rw [if_neg ha]
    decide

lemma mem_of_mem_splitext (f : List Char) (c : Char) :
    (c ∈ (splitext f).1 → c ∈ f) ∧ (c ∈ (splitext f).2 → c ∈ f) := by
  unfold splitext
  split
  · split
    · exact ⟨fun h => h, fun h => absurd h (List.not_mem_nil c)⟩
    · exact ⟨fun h => List.mem_of_mem_take h, fun h => List.mem_of_mem_drop h⟩
  · exact ⟨fun h => h, fun h => absurd h (List.not_mem_nil c)⟩

lemma mem_sanitize_filename (s : List Char) (c : Char)
    (hc : c ∈ sanitize_filename s) : c ∈ sanitize_sub s := by
  unfold sanitize_filename at hc
  split at hc
  · rcases List.mem_append.mp hc with h | h
    · refine (mem_of_mem_splitext (sanitize_sub s) c).1 ?_
      unfold pyslice_to at h
      split at h <;> exact List.mem_of_mem_take h
    · exact (mem_of_mem_splitext (sanitize_sub s) c).2 h
  · exact hc

/-- **C9, counterexample.** The filename `"a." + "b" * 250` survives the
substitution pass unchanged (252 characters), its `splitext` extension
is the 251-character `".bbb…b"`, the negative slice `name[:200-251]`
empties the stem, and the sanitized result is the full 251-character
extension — longer than the claimed 200-character bound. -/
theorem C9_counterexample :
    (sanitize_filename ('a' :: '.' :: List.replicate 250 'b')).length = 251 ∧
    ¬((251 : Nat) ≤ 200) := by
  refine ⟨by decide, by decide⟩

/-- **C9, amended.** Every character of `sanitize_filename`'s output is
in the class `[A-Za-z0-9 _.-]` — in particular no path separator
survives, so the object key `user_{id}/{name}` gains no extra `/`
segment from the filename — and the output is at most 200 characters
long *provided* the extension `os.path.splitext` finds in the
substituted name is itself at most 200 characters; a longer extension
defeats the truncation (the counterexample). -/
theorem C9_amended_sanitize (filename : List Char) :
    (∀ c ∈ sanitize_filename filename, allowed_char c = true) ∧
    '/' ∉ sanitize_filename filename ∧
    ((splitext (sanitize_sub filename)).2.length ≤ 200 →
      (sanitize_filename filename).length ≤ 200) := by
  refine ⟨?_, ?_, ?_⟩
  · intro c hc
    exact sanitize_sub_allowed filename c (mem_sanitize_filename filename c hc)
  · intro h
    have := sanitize_sub_allowed filename '/' (mem_sanitize_filename filename '/' h)
    simp [allowed_char] at this
  · intro hext
    unfold sanitize_filename
    split
    · have hlen : (pyslice_to (splitext (sanitize_sub filename)).1
          (200 - ((splitext (sanitize_sub filename)).2.length : Int))).length
          ≤ 200 - (splitext (sanitize_sub filename)).2.length := by
        unfold pyslice_to
        split
        · rw [List.length_take]
          omega
        · omega
      rw [List.length_append]
      omega
    · omega

/-- Witness for C9's amended theorem on the filename `"a/b.txt"`
(whose substituted form has the 4-character extension `".txt"`). -/
theorem C9_amended_sanitize_witness :
    '/' ∉ sanitize_filename ['a', '/', 'b', '.', 't', 'x', 't'] ∧
    (sanitize_filename ['a', '/', 'b', '.', 't', 'x', 't']).length ≤ 200 :=
  ⟨(C9_amended_sanitize ['a', '/', 'b', '.', 't', 'x', 't']).2.1,
    (C9_amended_sanitize ['a', '/', 'b', '.', 't', 'x', 't']).2.2 (by decide)⟩

/-! ### Progress-entry cleanup -/

/-- `if upload_id in upload_progress: del upload_progress[upload_id]`,
on the key set of the dictionary. -/
def dict_del (d : List String) (k : String) : List String :=
  d.filter fun x => x != k

/-- `upload_progress[upload_id] = {...}` on the key set. -/
def dict_put (d : List String) (k : String) : List String :=
  if d.contains k then d else k :: d

/-- Outcome of the upload work done inside a worker's `try` block. -/
inductive BodyOutcome where
  | success
  | failure (e : String)

/-- `upload_single_with_progress`
(`deepseek_python_20250920_ed84c8.py` lines 346-394): runs the body,
then `finally: if upload_id in upload_progress: del
upload_progress[upload_id]`; an exception propagates after the
cleanup. -/
def upload_single_with_progress (body : BodyOutcome) (d : List String)
    (uid : String) : Except String Unit × List String :=
  match body with
  | BodyOutcome.success => (Except.ok (), dict_del d uid)
  | BodyOutcome.failure e => (Except.error e, dict_del d uid)

/-- The state effect of `upload_multipart_with_progress`
(`deepseek_python_20250920_ed84c8.py` lines 396-463): runs the body,
wraps an exception in `Exception("Multipart upload failed: " + str(e))`,
and in `finally` deletes the progress entry. -/
def upload_multipart_with_progress_state (body : BodyOutcome) (d : List String)
    (uid : String) : Except String Unit × List String :=
  match body with
  | BodyOutcome.success => (Except.ok (), dict_del d uid)
  | BodyOutcome.failure e =>
    (Except.error ("Multipart upload failed: " ++ e), dict_del d uid)

/-- `upload_file_to_wasabi` (`deepseek_python_20250920_ed84c8.py` lines
314-345): creates `upload_progress[upload_id]`, dispatches to the
multipart worker when `file_size > MULTIPART_THRESHOLD`
(`50 * 1024 * 1024`) and to the single-file worker otherwise, and on an
exception deletes the entry (if still present) before re-raising. -/
def upload_file_to_wasabi (file_size : Nat) (body : BodyOutcome)
    (d : List String) (uid : String) : Except String Unit × List String :=
  let d1 := dict_put d uid
  let r := if 50 * 1024 * 1024 < file_size
    then upload_multipart_with_progress_state body d1 uid
    else upload_single_with_progress body d1 uid
  match r with
  | (Except.ok u, d2) => (Except.ok u, d2)
  | (Except.error e, d2) => (Except.error e, dict_del d2 uid)

/-- The state effect of `upload_multipart_turbo`
(`deepseek_python_20250920_c20274.py` lines 350-416): body, error
wrapping `Exception("Upload failed: " + str(e))`, `finally` cleanup of
`progress_tracker[progress_id]`. -/
def upload_multipart_turbo_state (body : BodyOutcome) (d : List String)
    (uid : String) : Except String Unit × List String :=
  match body with
  | BodyOutcome.success => (Except.ok (), dict_del d uid)
  | BodyOutcome.failure e =>
    (Except.error ("Upload failed: " ++ e), dict_del d uid)

/-- `upload_file_to_wasabi` (`deepseek_python_20250920_c20274.py` lines
327-348): creates `progress_tracker[progress_id]`, always dispatches to
`upload_multipart_turbo`, and on an exception deletes the entry (if
still present) before re-raising. -/
def upload_file_to_wasabi_turbo (body : BodyOutcome) (d : List String)
    (uid : String) : Except String Unit × List String :=
  let d1 := dict_put d uid
  match upload_multipart_turbo_state body d1 uid with
  | (Except.ok u, d2) => (Except.ok u, d2)
  | (Except.error e, d2) => (Except.error e, dict_del d2 uid)

/-- **C10.** Whether `upload_file_to_wasabi` returns successfully or
propagates an exception, the session's entry in the global
progress-tracking dictionary is gone by the time the call finishes —
the worker's `finally` removes it on every path and the caller's
exception handler re-deletes defensively — in both the ed84c8 and the
c20274 variant. -/
theorem C10_no_stale_progress_entry (file_size : Nat) (body : BodyOutcome)
    (d : List String) (uid : String) :
    uid ∉ (upload_file_to_wasabi file_size body d uid).2 ∧
    uid ∉ (upload_file_to_wasabi_turbo body d uid).2 := by
  constructor
  · unfold upload_file_to_wasabi
    split
    · cases body <;> simp [upload_multipart_with_progress_state, dict_del]
    · cases body <;> simp [upload_single_with_progress, dict_del]
  · unfold upload_file_to_wasabi_turbo
    cases body <;> simp [upload_multipart_turbo_state, dict_del]

end Storagebot
